import Mathlib

/-!
Shallow embedding of the core simulation in `src/main.ts` (a minimal
side-scrolling platformer): the character controller (gravity, wrap-around,
platform collision), the level manager (camera scroll latch, platform
recycling and spawning) and the per-frame game loop.

Modelling conventions:
* JavaScript numbers are modelled as exact rationals (`ℚ`).
* `Math.random()` results are passed in explicitly as a `rand : ℚ` argument.
* In-place mutation of `this` and `state` becomes explicit state passing:
  methods return the updated records.
* The game-loop's rendering, audio and DOM calls have no effect on the
  simulation state and are omitted; the one state mutation in the `'LOOSE'`
  branch (`state.cameraOffset = 0`) is kept.
-/

/-- `status: 'GAME' | 'LOOSE'` from the `GameState` type. -/
inductive GameStatus where
  | GAME : GameStatus
  | LOOSE : GameStatus
deriving DecidableEq, Repr

/-- The `GameState` record: `{cameraOffset, height, width, status, points}`. -/
structure GameState where
  cameraOffset : ℚ
  height : ℚ
  width : ℚ
  status : GameStatus
  points : ℚ
deriving DecidableEq, Repr

/-- The `Dimension` class: an axis-aligned rectangle in world coordinates. -/
structure Dimension where
  x : ℚ
  y : ℚ
  width : ℚ
  height : ℚ
deriving DecidableEq, Repr

/-- The `RectGameObject` class: a `Dimension` plus a render color.
Platforms are exactly these. -/
structure RectGameObject where
  dimension : Dimension
  color : String
deriving DecidableEq, Repr

/-- `RectGameObject.getDimension()`. -/
def RectGameObject.getDimension (p : RectGameObject) : Dimension :=
  p.dimension

/-- The `MainCharacter` class (it extends `GameObject`, so it carries the
rectangle fields `x, y, width, height` directly). -/
structure MainCharacter where
  x : ℚ
  y : ℚ
  width : ℚ
  height : ℚ
  velocityX : ℚ
  velocityY : ℚ
  gravity : ℚ
  speed : ℚ
  jumpStrength : ℚ
  onGround : Bool
deriving DecidableEq, Repr

/-- The `MainCharacter` constructor: position and sprite size are given,
kinematic constants are fixed (`gravity = 0.7`, `speed = 5`,
`jumpStrength = -15`), velocities start at zero, airborne. -/
def MainCharacter.mk' (x y width height : ℚ) : MainCharacter :=
  { x := x, y := y, width := width, height := height,
    velocityX := 0, velocityY := 0, gravity := 7/10, speed := 5,
    jumpStrength := -15, onGround := false }

/-- Step 1 of `MainCharacter.update`: `if (!this.onGround) velocityY += gravity`. -/
def gravityStep (c : MainCharacter) : MainCharacter :=
  if c.onGround then c else { c with velocityY := c.velocityY + c.gravity }

/-- Step 2 of `MainCharacter.update`: the loss check
`if (y >= cameraOffset + height) status = 'LOOSE'`, performed before the
positional updates. -/
def loseCheck (c : MainCharacter) (s : GameState) : GameState :=
  if c.y ≥ s.cameraOffset + s.height then { s with status := GameStatus.LOOSE } else s

/-- Step 3 of `MainCharacter.update`: `x += velocityX` followed by the
horizontal wrap (`x < 0 → x = width`, else `x > width → x = 0`). -/
def horizontalStep (c : MainCharacter) (s : GameState) : MainCharacter :=
  let c' := { c with x := c.x + c.velocityX }
  if c'.x < 0 then { c' with x := s.width }
  else if c'.x > s.width then { c' with x := 0 }
  else c'

/-- Step 4 of `MainCharacter.update`: `y += velocityY`. -/
def verticalStep (c : MainCharacter) : MainCharacter :=
  { c with y := c.y + c.velocityY }

/-- The landing condition tested for each platform inside the collision loop
of `MainCharacter.update` (evaluated after `y += velocityY`):
`y + height <= dim.y && y + height + velocityY >= dim.y && x + width > dim.x
&& x < dim.x + dim.width`. -/
def landCond (c : MainCharacter) (dim : Dimension) : Bool :=
  decide (c.y + c.height ≤ dim.y) &&
  decide (c.y + c.height + c.velocityY ≥ dim.y) &&
  decide (c.x + c.width > dim.x) &&
  decide (c.x < dim.x + dim.width)

/-- One iteration of the collision loop: on a hit, snap the bottom to the
platform top, zero `velocityY`, set `onGround`. -/
def landOn (c : MainCharacter) (p : RectGameObject) : MainCharacter :=
  let dim := p.getDimension
  if landCond c dim then
    { c with onGround := true, y := dim.y - c.height, velocityY := 0 }
  else c

/-- Step 5 of `MainCharacter.update`: `onGround = false`, then the collision
loop over all platforms in order. -/
def collisionStep (c : MainCharacter) (platforms : List RectGameObject) : MainCharacter :=
  List.foldl landOn { c with onGround := false } platforms

/-- `MainCharacter.update(platforms, state)`: gravity, loss check, horizontal
move with wrap, vertical move, collision resolution — in that order. -/
def MainCharacter.update (c : MainCharacter) (platforms : List RectGameObject)
    (s : GameState) : MainCharacter × GameState :=
  let c1 := gravityStep c
  let s1 := loseCheck c1 s
  let c2 := horizontalStep c1 s1
  let c3 := verticalStep c2
  (collisionStep c3 platforms, s1)

/-- `MainCharacter.moveLeft()`. -/
def MainCharacter.moveLeft (c : MainCharacter) : MainCharacter :=
  { c with velocityX := -c.speed }

/-- `MainCharacter.moveRight()`. -/
def MainCharacter.moveRight (c : MainCharacter) : MainCharacter :=
  { c with velocityX := c.speed }

/-- `MainCharacter.stopMoving()`. -/
def MainCharacter.stopMoving (c : MainCharacter) : MainCharacter :=
  { c with velocityX := 0 }

/-- `MainCharacter.jump()`: only takes effect when `onGround`. -/
def MainCharacter.jump (c : MainCharacter) : MainCharacter :=
  if c.onGround then { c with velocityY := c.jumpStrength, onGround := false }
  else c

/-- `getRandomFloat(min, max)` with the `Math.random()` result `rand` made
explicit: `rand * (max - min) + min`. -/
def getRandomFloat (min max rand : ℚ) : ℚ :=
  rand * (max - min) + min

/-- The `Level` class: the active platform list plus the `startScrolling`
one-way latch. -/
structure Level where
  platforms : List RectGameObject
  startScrolling : Bool
deriving DecidableEq, Repr

/-- The `Level` constructor: no platforms, scrolling not latched. -/
def Level.mk' : Level :=
  { platforms := [], startScrolling := false }

/-- `Level.addPlatform(platform)`: appends an explicit platform. -/
def Level.addPlatform (l : Level) (platform : RectGameObject) : Level :=
  { l with platforms := l.platforms ++ [platform] }

/-- `Level.spawnPlatform(state, height?)`: appends a 80×10 brown platform at a
random horizontal position in `[0, width - 80)` and vertical position
`height ?? -cameraOffset`. -/
def Level.spawnPlatform (l : Level) (s : GameState) (rand : ℚ) (height : Option ℚ) :
    Level :=
  { l with platforms := l.platforms ++
      [⟨⟨getRandomFloat 0 (s.width - 80) rand, height.getD (-s.cameraOffset), 80, 10⟩,
        "brown"⟩] }

/-- The keep condition of the platform filter in `Level.update`:
`p.getDimension().y + state.cameraOffset < state.height` (the local `drop`). -/
def keepPlatform (s : GameState) (p : RectGameObject) : Bool :=
  decide (p.getDimension.y + s.cameraOffset < s.height)

/-- `Level.update(player, state)`: latch-and-scroll, then filter platforms
that are still on screen (the filter callback records in `spawn` whether any
platform was dropped), then spawn one replacement if any was dropped. -/
def Level.update (l : Level) (player : MainCharacter) (s : GameState) (rand : ℚ) :
    Level × GameState :=
  let distance := s.height * (13/20)
  let latch := l.startScrolling || decide (player.y ≤ distance)
  let s1 := if latch then { s with cameraOffset := s.cameraOffset + 2 } else s
  let l1 : Level := { startScrolling := latch,
                      platforms := l.platforms.filter (keepPlatform s1) }
  let spawn := l.platforms.any (fun p => ! keepPlatform s1 p)
  if spawn then (l1.spawnPlatform s1 rand none, s1) else (l1, s1)

/-- `Level.reset()`: clears all platforms and un-latches scrolling. -/
def Level.reset (_l : Level) : Level :=
  { platforms := [], startScrolling := false }

/-- The per-tick snapshot of held keys consumed by `handlePlayerInput`
(`ArrowLeft || a`, `ArrowRight || d`, `ArrowUp || w`). -/
structure Keys where
  left : Bool
  right : Bool
  up : Bool
deriving DecidableEq, Repr

/-- `handlePlayerInput(player)`: issue `moveLeft`/`moveRight`/`stopMoving`
from the held directional keys, then `jump` if the up key is held. -/
def handlePlayerInput (k : Keys) (p : MainCharacter) : MainCharacter :=
  let p1 := if k.left then p.moveLeft else if k.right then p.moveRight else p.stopMoving
  if k.up then p1.jump else p1

/-- The mutable state threaded through `gameLoop`: the game state, the level
and the player. -/
structure World where
  state : GameState
  level : Level
  player : MainCharacter
deriving DecidableEq, Repr

/-- One invocation of `gameLoop`, returning the new world and whether the
loop rescheduled itself (`requestAnimationFrame`). In the `'GAME'` branch:
input handling, `player.update` against the current platform set, then
`level.update`; rendering has no state effect. In the `'LOOSE'` branch the
only state effect is the button-rendering hack `state.cameraOffset = 0`;
the loop does not reschedule. -/
def gameLoopStep (k : Keys) (rand : ℚ) (w : World) : World × Bool :=
  match w.state.status with
  | GameStatus.GAME =>
    let p0 := handlePlayerInput k w.player
    let (p1, s1) := p0.update w.level.platforms w.state
    let (l1, s2) := w.level.update p1 s1 rand
    (⟨s2, l1, p1⟩, true)
  | GameStatus.LOOSE =>
    (⟨{ w.state with cameraOffset := 0 }, w.level, w.player⟩, false)

/-- Iterated game loop: run one `gameLoopStep` per tick, feeding each tick's
key snapshot and random draw. -/
def runTicks : List (Keys × ℚ) → World → World
  | [], w => w
  | (k, r) :: rest, w => runTicks rest (gameLoopStep k r w).1

/-- The fresh `GameState` built by `startGame()`. -/
def initialState : GameState :=
  { width := 400, height := 700, cameraOffset := 0, status := GameStatus.GAME,
    points := 0 }


/-- The character state entering the collision loop of `MainCharacter.update`:
after gravity, loss check, horizontal and vertical moves, with
`onGround = false`. -/
def preCollision (c : MainCharacter) (s : GameState) : MainCharacter :=
  { verticalStep (horizontalStep (gravityStep c) (loseCheck (gravityStep c) s)) with
      onGround := false }

/-- A concrete airborne character used to instantiate witnesses. -/
def airborneChar : MainCharacter := MainCharacter.mk' 50 600 10 10

/-- A concrete grounded character used to instantiate witnesses. -/
def groundedChar : MainCharacter :=
  { MainCharacter.mk' 50 600 10 10 with onGround := true }

/-- A concrete falling character (downward velocity) used in witnesses. -/
def fallChar : MainCharacter :=
  { MainCharacter.mk' 0 0 10 10 with velocityY := 1, gravity := 1 }

/-- A concrete platform whose top the falling witness character lands on. -/
def witnessPlat : RectGameObject := ⟨⟨0, 13, 80, 10⟩, "brown"⟩

/-- The world state produced by one `'GAME'`-branch pass of `gameLoop`:
input handling, character update against the current platforms, level update. -/
def gameTick (k : Keys) (r : ℚ) (w : World) : World :=
  let p0 := handlePlayerInput k w.player
  let pr := p0.update w.level.platforms w.state
  let lr := w.level.update pr.1 pr.2 r
  ⟨lr.2, lr.1, pr.1⟩

/-- A concrete ended (`LOOSE`) world with a nonzero camera offset. -/
def looseWorld : World :=
  { state := { cameraOffset := 10, height := 700, width := 400,
               status := GameStatus.LOOSE, points := 0 },
    level := { platforms := [], startScrolling := true },
    player := MainCharacter.mk' 50 600 10 10 }

/-- A concrete running (`GAME`) world, scrolling not yet latched, character too
low on screen to latch it. -/
def runningWorld : World :=
  { state := initialState,
    level := { platforms := [⟨⟨-20, 690, 440, 10⟩, "green"⟩], startScrolling := false },
    player := MainCharacter.mk' 50 600 10 10 }

/-- A concrete running world whose scrolling latch is already set. -/
def latchedWorld : World :=
  { state := initialState,
    level := { platforms := [⟨⟨-20, 690, 440, 10⟩, "green"⟩], startScrolling := true },
    player := MainCharacter.mk' 50 600 10 10 }

/-- The key snapshot with no keys held. -/
def noKeys : Keys := ⟨false, false, false⟩

/-- A concrete character high enough on screen (`y = 400`) to trigger the
scroll latch in a 700-high viewport. -/
def highChar : MainCharacter := MainCharacter.mk' 50 400 10 10

/-- A concrete level whose scrolling latch is already set. -/
def latchedLevel : Level := { platforms := [], startScrolling := true }

/-! ### Helper lemmas about the collision loop -/

lemma gravityStep_x (c : MainCharacter) : (gravityStep c).x = c.x := by
  unfold gravityStep; split <;> rfl

lemma gravityStep_y (c : MainCharacter) : (gravityStep c).y = c.y := by
  unfold gravityStep; split <;> rfl

lemma gravityStep_velocityX (c : MainCharacter) :
    (gravityStep c).velocityX = c.velocityX := by
  unfold gravityStep; split <;> rfl

lemma gravityStep_height (c : MainCharacter) : (gravityStep c).height = c.height := by
  unfold gravityStep; split <;> rfl

lemma loseCheck_width (c : MainCharacter) (s : GameState) :
    (loseCheck c s).width = s.width := by
  unfold loseCheck; split <;> rfl

lemma horizontalStep_height (c : MainCharacter) (s : GameState) :
    (horizontalStep c s).height = c.height := by
  unfold horizontalStep
  dsimp only
  split
  · rfl
  · split <;> rfl

lemma landOn_x (c : MainCharacter) (p : RectGameObject) : (landOn c p).x = c.x := by
  unfold landOn
  dsimp only
  split <;> rfl

lemma landOn_height (c : MainCharacter) (p : RectGameObject) :
    (landOn c p).height = c.height := by
  unfold landOn
  dsimp only
  split <;> rfl

lemma foldl_landOn_x (l : List RectGameObject) (c : MainCharacter) :
    (List.foldl landOn c l).x = c.x := by
  induction l generalizing c with
  | nil => rfl
  | cons p l ih => rw [List.foldl_cons, ih, landOn_x]

lemma foldl_landOn_height (l : List RectGameObject) (c : MainCharacter) :
    (List.foldl landOn c l).height = c.height := by
  induction l generalizing c with
  | nil => rfl
  | cons p l ih => rw [List.foldl_cons, ih, landOn_height]

lemma landOn_snap (c : MainCharacter) (p : RectGameObject)
    (h : landCond c p.getDimension = true) :
    landOn c p =
      { c with onGround := true, y := p.getDimension.y - c.height, velocityY := 0 } := by
  unfold landOn
  simp only [h, if_true]

/-- Once the character is grounded with zero vertical velocity, a further pass
of the collision loop body leaves it unchanged: with `velocityY = 0` the
landing condition forces `dim.y = y + height`, so the snap rewrites every
field to its current value. -/
lemma landOn_grounded (c : MainCharacter) (p : RectGameObject)
    (hg : c.onGround = true) (hv : c.velocityY = 0) : landOn c p = c := by
  unfold landOn
  dsimp only
  split
  · next h =>
    simp only [landCond, hv, Bool.and_eq_true, decide_eq_true_eq] at h
    obtain ⟨⟨⟨h1, h2⟩, _⟩, _⟩ := h
    have hy : p.getDimension.y = c.y + c.height := by linarith
    cases c
    simp_all
  · rfl

lemma foldl_landOn_grounded (l : List RectGameObject) (c : MainCharacter)
    (hg : c.onGround = true) (hv : c.velocityY = 0) : List.foldl landOn c l = c := by
  induction l with
  | nil => rfl
  | cons p l ih => rw [List.foldl_cons, landOn_grounded c p hg hv, ih]

lemma update_eq_foldl (c : MainCharacter) (ps : List RectGameObject) (s : GameState) :
    c.update ps s = (List.foldl landOn (preCollision c s) ps,
      loseCheck (gravityStep c) s) := rfl

lemma preCollision_onGround (c : MainCharacter) (s : GameState) :
    (preCollision c s).onGround = false := rfl

lemma preCollision_height (c : MainCharacter) (s : GameState) :
    (preCollision c s).height = c.height := by
  show (horizontalStep (gravityStep c) (loseCheck (gravityStep c) s)).height = c.height
  rw [horizontalStep_height, gravityStep_height]

lemma horizontalStep_y (c : MainCharacter) (s : GameState) :
    (horizontalStep c s).y = c.y := by
  unfold horizontalStep
  dsimp only
  split
  · rfl
  · split <;> rfl

lemma horizontalStep_velocityY (c : MainCharacter) (s : GameState) :
    (horizontalStep c s).velocityY = c.velocityY := by
  unfold horizontalStep
  dsimp only
  split
  · rfl
  · split <;> rfl

lemma gravityStep_velocityY (c : MainCharacter) :
    (gravityStep c).velocityY =
      if c.onGround then c.velocityY else c.velocityY + c.gravity := by
  unfold gravityStep
  split <;> rfl

lemma horizontalStep_x (c : MainCharacter) (s : GameState) :
    (horizontalStep c s).x =
      if c.x + c.velocityX < 0 then s.width
      else if c.x + c.velocityX > s.width then 0
      else c.x + c.velocityX := by
  unfold horizontalStep
  dsimp only
  split
  · rfl
  · split <;> rfl

lemma preCollision_x (c : MainCharacter) (s : GameState) :
    (preCollision c s).x =
      (horizontalStep (gravityStep c) (loseCheck (gravityStep c) s)).x := rfl

lemma preCollision_y (c : MainCharacter) (s : GameState) :
    (preCollision c s).y =
      (horizontalStep (gravityStep c) (loseCheck (gravityStep c) s)).y +
        (horizontalStep (gravityStep c) (loseCheck (gravityStep c) s)).velocityY := rfl

lemma preCollision_velocityY (c : MainCharacter) (s : GameState) :
    (preCollision c s).velocityY =
      (horizontalStep (gravityStep c) (loseCheck (gravityStep c) s)).velocityY := rfl

/-! ### Claim theorems -/

/-- Claim C5: `MainCharacter.update` ends the tick with status `LOOSE` exactly
when the status was already `LOOSE` or the character's `y` at entry — its value
from the end of the previous tick — satisfies `y ≥ cameraOffset + height`; the
check uses the pre-move position, so the tick's horizontal and vertical updates
do not influence it. -/
theorem update_lose_status_iff (c : MainCharacter) (ps : List RectGameObject)
    (s : GameState) :
    (c.update ps s).2.status = GameStatus.LOOSE ↔
      s.status = GameStatus.LOOSE ∨ s.cameraOffset + s.height ≤ c.y := by
  rw [update_eq_foldl]
  show (loseCheck (gravityStep c) s).status = GameStatus.LOOSE ↔ _
  unfold loseCheck
  rw [gravityStep_y]
  split
  · next h =>
    simp only [ge_iff_le] at h
    simp [h]
  · next h =>
    rw [ge_iff_le, not_le] at h
    simp [not_le.mpr h]

/-- Claim C6: in every `MainCharacter.update` the horizontal wrap after
`x += velocityX` is exact — `x < 0` sends `x` to `viewportWidth`, and strictly
`x > viewportWidth` (not `≥`) sends `x` to `0`, on the same tick; and there is
no vertical wrap: absent platforms, `y` is simply integrated by the tick's
`velocityY`, whatever value it takes. -/
theorem update_horizontal_wrap (c : MainCharacter) (ps : List RectGameObject)
    (s : GameState) :
    ((c.update ps s).1.x =
      if c.x + c.velocityX < 0 then s.width
      else if c.x + c.velocityX > s.width then 0
      else c.x + c.velocityX) ∧
    (c.update [] s).1.y =
      c.y + (if c.onGround then c.velocityY else c.velocityY + c.gravity) := by
  constructor
  · rw [update_eq_foldl]
    show (List.foldl landOn (preCollision c s) ps).x = _
    rw [foldl_landOn_x, preCollision_x, horizontalStep_x, gravityStep_x,
      gravityStep_velocityX, loseCheck_width]
  · rw [update_eq_foldl]
    show (preCollision c s).y = _
    rw [preCollision_y, horizontalStep_y, horizontalStep_velocityY, gravityStep_y,
      gravityStep_velocityY]

/-- Claim C8: gravity is applied only while airborne, and first: the gravity
step adds `gravity` to `velocityY` when `onGround` is false at entry and leaves
the character untouched when grounded; `MainCharacter.update` runs it before
the loss check, the moves and the collision loop; and absent platforms the
tick's final `velocityY` is the entry value plus gravity exactly when airborne. -/
theorem update_gravity_airborne_only (c : MainCharacter) (ps : List RectGameObject)
    (s : GameState) :
    (gravityStep c =
      if c.onGround then c else { c with velocityY := c.velocityY + c.gravity }) ∧
    (c.update ps s =
      (collisionStep
        (verticalStep (horizontalStep (gravityStep c) (loseCheck (gravityStep c) s)))
        ps,
       loseCheck (gravityStep c) s)) ∧
    (c.update [] s).1.velocityY =
      (if c.onGround then c.velocityY else c.velocityY + c.gravity) := by
  refine ⟨rfl, rfl, ?_⟩
  rw [update_eq_foldl]
  show (preCollision c s).velocityY = _
  rw [preCollision_velocityY, horizontalStep_velocityY, gravityStep_velocityY]

/-- Claim C9: `stopMoving` leaves `velocityX = 0` and is idempotent; `jump`
while airborne changes no state at all; `jump` while grounded sets
`velocityY = jumpStrength` and clears `onGround`. -/
theorem movement_commands_spec (c : MainCharacter) :
    c.stopMoving.velocityX = 0 ∧
    c.stopMoving.stopMoving = c.stopMoving ∧
    (c.onGround = false → c.jump = c) ∧
    (c.onGround = true →
      c.jump = { c with velocityY := c.jumpStrength, onGround := false }) := by
  refine ⟨rfl, rfl, ?_, ?_⟩
  · intro h
    unfold MainCharacter.jump
    simp [h]
  · intro h
    unfold MainCharacter.jump
    simp [h]

/-- Witness for C9 at concrete characters: `jump` is a no-op on an airborne
character and takes effect on a grounded one. -/
theorem movement_commands_spec_witness :
    airborneChar.jump = airborneChar ∧
    groundedChar.jump =
      { groundedChar with
        velocityY := groundedChar.jumpStrength
        onGround := false } :=
  ⟨(movement_commands_spec airborneChar).2.2.1 rfl,
   (movement_commands_spec groundedChar).2.2.2 rfl⟩

/-- If the collision loop starts airborne and ends grounded, some platform of
the list matched: vertical velocity is zero and the bottom edge sits exactly on
that platform's top. -/
lemma foldl_landOn_onGround_spec (l : List RectGameObject) (c : MainCharacter)
    (hc : c.onGround = false) (h : (List.foldl landOn c l).onGround = true) :
    (List.foldl landOn c l).velocityY = 0 ∧
    ∃ p ∈ l, (List.foldl landOn c l).y + (List.foldl landOn c l).height =
      p.getDimension.y := by
  induction l generalizing c with
  | nil =>
    rw [List.foldl_nil] at h
    rw [hc] at h
    cases h
  | cons q l ih =>
    rw [List.foldl_cons] at h ⊢
    by_cases hq : landCond c q.getDimension = true
    · rw [landOn_snap _ _ hq] at h ⊢
      rw [foldl_landOn_grounded _ _ rfl rfl] at h ⊢
      refine ⟨rfl, q, List.mem_cons_self _ _, ?_⟩
      dsimp only
      ring
    · have hid : landOn c q = c := by
        unfold landOn
        dsimp only
        rw [if_neg hq]
      rw [hid] at h ⊢
      obtain ⟨hv, p, hp, he⟩ := ih c hc h
      exact ⟨hv, p, List.mem_cons_of_mem _ hp, he⟩

/-- Claim C1: if during a tick the landing condition is met for a platform `p`
(the condition the collision loop evaluates: bottom edge still at-or-above the
platform top after the vertical move, at-or-below it after accounting for
`velocityY` once more, horizontal extents overlapping), and the character
entered the tick falling (`velocityY > 0`), then `MainCharacter.update` ends the
tick with `onGround = true`, `velocityY = 0` and `y` exactly
`platform.y - height`. -/
theorem update_landing (c : MainCharacter) (s : GameState)
    (l1 l2 : List RectGameObject) (p : RectGameObject)
    (hvy : 0 < c.velocityY)
    (hcond : landCond (List.foldl landOn (preCollision c s) l1) p.getDimension
      = true) :
    (c.update (l1 ++ p :: l2) s).1.onGround = true ∧
    (c.update (l1 ++ p :: l2) s).1.velocityY = 0 ∧
    (c.update (l1 ++ p :: l2) s).1.y = p.getDimension.y - c.height := by
  rw [update_eq_foldl]
  show (List.foldl landOn (preCollision c s) (l1 ++ p :: l2)).onGround = true ∧ _ ∧ _
  rw [List.foldl_append, List.foldl_cons, landOn_snap _ _ hcond,
    foldl_landOn_grounded _ _ rfl rfl]
  refine ⟨rfl, rfl, ?_⟩
  show p.getDimension.y - (List.foldl landOn (preCollision c s) l1).height =
    p.getDimension.y - c.height
  rw [foldl_landOn_height, preCollision_height]

/-- Witness for C1: the concrete falling character meets the landing condition
for the concrete platform and ends the tick snapped onto it. -/
theorem update_landing_witness :
    0 < fallChar.velocityY ∧
    landCond (List.foldl landOn (preCollision fallChar initialState) [])
      witnessPlat.getDimension = true ∧
    ((fallChar.update ([] ++ witnessPlat :: []) initialState).1.onGround = true ∧
     (fallChar.update ([] ++ witnessPlat :: []) initialState).1.velocityY = 0 ∧
     (fallChar.update ([] ++ witnessPlat :: []) initialState).1.y =
       witnessPlat.getDimension.y - fallChar.height) := by
  have h1 : 0 < fallChar.velocityY := by norm_num [fallChar, MainCharacter.mk']
  have h2 : landCond (List.foldl landOn (preCollision fallChar initialState) [])
      witnessPlat.getDimension = true := by
    norm_num [landCond, preCollision, verticalStep, horizontalStep, gravityStep,
      loseCheck, fallChar, witnessPlat, initialState, MainCharacter.mk',
      RectGameObject.getDimension]
  exact ⟨h1, h2, update_landing fallChar initialState [] [] witnessPlat h1 h2⟩

/-- Claim C10: whenever `MainCharacter.update` returns with `onGround = true`,
the vertical velocity is zero and the character's bottom edge (`y + height`)
coincides exactly with the top edge of some platform of the list that was
passed in. -/
theorem update_onGround_on_platform (c : MainCharacter) (ps : List RectGameObject)
    (s : GameState) (h : (c.update ps s).1.onGround = true) :
    (c.update ps s).1.velocityY = 0 ∧
    ∃ p ∈ ps, (c.update ps s).1.y + (c.update ps s).1.height = p.getDimension.y := by
  rw [update_eq_foldl] at h ⊢
  exact foldl_landOn_onGround_spec ps (preCollision c s) (preCollision_onGround c s) h

/-- Witness for C10: the concrete falling character ends its tick grounded, and
the theorem places its bottom edge on a platform of the passed list. -/
theorem update_onGround_on_platform_witness :
    (fallChar.update [witnessPlat] initialState).1.onGround = true ∧
    ((fallChar.update [witnessPlat] initialState).1.velocityY = 0 ∧
     ∃ p ∈ [witnessPlat],
       (fallChar.update [witnessPlat] initialState).1.y +
         (fallChar.update [witnessPlat] initialState).1.height =
         p.getDimension.y) := by
  have hOn : (fallChar.update [witnessPlat] initialState).1.onGround = true := by
    norm_num [MainCharacter.update, collisionStep, landOn, landCond, verticalStep,
      horizontalStep, gravityStep, loseCheck, fallChar, witnessPlat, initialState,
      MainCharacter.mk', RectGameObject.getDimension]
  exact ⟨hOn, update_onGround_on_platform fallChar [witnessPlat] initialState hOn⟩

/-! ### Helper lemmas about the level manager and the game loop -/

lemma level_update_startScrolling (l : Level) (player : MainCharacter)
    (s : GameState) (rand : ℚ) :
    (l.update player s rand).1.startScrolling =
      (l.startScrolling || decide (player.y ≤ s.height * (13/20))) := by
  unfold Level.update
  dsimp only
  split <;> split <;> rfl

lemma level_update_snd (l : Level) (player : MainCharacter) (s : GameState)
    (rand : ℚ) :
    (l.update player s rand).2 =
      if (l.startScrolling || decide (player.y ≤ s.height * (13/20))) = true
      then { s with cameraOffset := s.cameraOffset + 2 } else s := by
  unfold Level.update
  dsimp only
  split <;> split <;> rfl

lemma step_game (k : Keys) (r : ℚ) (w : World)
    (h : w.state.status = GameStatus.GAME) :
    gameLoopStep k r w = (gameTick k r w, true) := by
  obtain ⟨st, lv, pl⟩ := w
  obtain ⟨co, ht, wd, stat, pts⟩ := st
  dsimp only at h
  subst h
  rfl

lemma step_loose (k : Keys) (r : ℚ) (w : World)
    (h : w.state.status = GameStatus.LOOSE) :
    gameLoopStep k r w =
      (⟨{ w.state with cameraOffset := 0 }, w.level, w.player⟩, false) := by
  obtain ⟨st, lv, pl⟩ := w
  obtain ⟨co, ht, wd, stat, pts⟩ := st
  dsimp only at h
  subst h
  rfl

lemma loseCheck_cameraOffset (c : MainCharacter) (s : GameState) :
    (loseCheck c s).cameraOffset = s.cameraOffset := by
  unfold loseCheck; split <;> rfl

lemma loseCheck_height (c : MainCharacter) (s : GameState) :
    (loseCheck c s).height = s.height := by
  unfold loseCheck; split <;> rfl

/-- A step of the loop never clears the scrolling latch. -/
lemma step_preserves_latch (k : Keys) (r : ℚ) (w : World)
    (h : w.level.startScrolling = true) :
    ((gameLoopStep k r w).1).level.startScrolling = true := by
  cases hs : w.state.status with
  | GAME =>
    rw [step_game k r w hs]
    show (gameTick k r w).level.startScrolling = true
    unfold gameTick
    dsimp only
    rw [level_update_startScrolling, h, Bool.true_or]
  | LOOSE =>
    rw [step_loose k r w hs]
    exact h

/-- Any number of further ticks never clears the scrolling latch. -/
lemma runTicks_preserves_latch (ticks : List (Keys × ℚ)) (w : World)
    (h : w.level.startScrolling = true) :
    (runTicks ticks w).level.startScrolling = true := by
  induction ticks generalizing w with
  | nil => exact h
  | cons t ticks ih =>
    obtain ⟨k, r⟩ := t
    exact ih _ (step_preserves_latch k r w h)

lemma update_snd_cameraOffset (c : MainCharacter) (ps : List RectGameObject)
    (s : GameState) :
    (c.update ps s).2.cameraOffset = s.cameraOffset := by
  rw [update_eq_foldl]
  exact loseCheck_cameraOffset _ _

lemma runTicks_loose (ticks : List (Keys × ℚ)) (w : World)
    (h : w.state.status = GameStatus.LOOSE) :
    (runTicks ticks w).player = w.player ∧ (runTicks ticks w).level = w.level ∧
    (runTicks ticks w).state.status = GameStatus.LOOSE := by
  induction ticks generalizing w with
  | nil => exact ⟨rfl, rfl, h⟩
  | cons t ticks ih =>
    obtain ⟨k, r⟩ := t
    have hstep := step_loose k r w h
    have h2 : ((gameLoopStep k r w).1).state.status = GameStatus.LOOSE := by
      rw [hstep]
      exact h
    have h3 := ih (gameLoopStep k r w).1 h2
    have hr : runTicks ((k, r) :: ticks) w = runTicks ticks (gameLoopStep k r w).1 := rfl
    rw [hr]
    refine ⟨?_, ?_, h3.2.2⟩
    · rw [h3.1, hstep]
    · rw [h3.2.1, hstep]

/-- Claim C4: reaching `y ≤ height * 0.65` during a `Level.update` sets the
`startScrolling` latch; any further ticks of the run keep it set (even if the
character later descends); and every `Level.update` with the latch set adds
exactly 2 to `cameraOffset`, whatever the character's position. -/
theorem scroll_latch_spec (l : Level) (player : MainCharacter) (s : GameState)
    (rand : ℚ) :
    (player.y ≤ s.height * (13/20) →
      (l.update player s rand).1.startScrolling = true) ∧
    (l.startScrolling = true →
      (l.update player s rand).1.startScrolling = true ∧
      (l.update player s rand).2.cameraOffset = s.cameraOffset + 2) ∧
    (∀ (w : World) (ticks : List (Keys × ℚ)), w.level.startScrolling = true →
      (runTicks ticks w).level.startScrolling = true) := by
  refine ⟨?_, ?_, fun w ticks h => runTicks_preserves_latch ticks w h⟩
  · intro h
    rw [level_update_startScrolling]
    simp [h]
  · intro h
    refine ⟨?_, ?_⟩
    · rw [level_update_startScrolling, h, Bool.true_or]
    · rw [level_update_snd, h]
      simp
/-- Witness for C4 at concrete inputs: a fresh level latches for a character at
`y = 400` in a 700-high viewport; a latched level stays latched and gains
exactly 2 of camera offset; a latched world stays latched over further ticks. -/
theorem scroll_latch_spec_witness :
    (Level.mk'.update highChar initialState 0).1.startScrolling = true ∧
    ((latchedLevel.update airborneChar initialState 0).1.startScrolling = true ∧
     (latchedLevel.update airborneChar initialState 0).2.cameraOffset =
       initialState.cameraOffset + 2) ∧
    (runTicks [(noKeys, 0)] latchedWorld).level.startScrolling = true :=
  ⟨(scroll_latch_spec Level.mk' highChar initialState 0).1
      (by norm_num [highChar, MainCharacter.mk', initialState]),
   (scroll_latch_spec latchedLevel airborneChar initialState 0).2.1 rfl,
   (scroll_latch_spec latchedLevel airborneChar initialState 0).2.2
      latchedWorld [(noKeys, 0)] rfl⟩

/-- Claim C2 counterexample: a single pass of the loop in the ended (`LOOSE`)
state — the game-over screen render, not a restart — resets `cameraOffset`
from 10 to 0, a strict decrease. -/
theorem camera_decreases_on_loose_pass :
    ((gameLoopStep noKeys 0 looseWorld).1).state.cameraOffset
      < looseWorld.state.cameraOffset := by
  rw [step_loose _ _ _ rfl]
  norm_num [looseWorld]

/-- Claim C2 (amended): during `GAME`-status ticks `cameraOffset` never
decreases, and it is strictly unchanged on any tick that ends with the
scrolling latch still unset; but a pass of the loop in the `LOOSE` state
resets it to 0 (the game-over screen render), without any restart. -/
theorem camera_monotone_in_game (k : Keys) (r : ℚ) (w : World) :
    (w.state.status = GameStatus.GAME →
      w.state.cameraOffset ≤ ((gameLoopStep k r w).1).state.cameraOffset ∧
      (((gameLoopStep k r w).1).level.startScrolling = false →
        ((gameLoopStep k r w).1).state.cameraOffset = w.state.cameraOffset)) ∧
    (w.state.status = GameStatus.LOOSE →
      ((gameLoopStep k r w).1).state.cameraOffset = 0) := by
  have hoff : ((handlePlayerInput k w.player).update w.level.platforms w.state).2.cameraOffset
      = w.state.cameraOffset := update_snd_cameraOffset _ _ _
  constructor
  · intro h
    rw [step_game k r w h]
    show w.state.cameraOffset ≤ (gameTick k r w).state.cameraOffset ∧
      ((gameTick k r w).level.startScrolling = false →
        (gameTick k r w).state.cameraOffset = w.state.cameraOffset)
    unfold gameTick
    dsimp only
    rw [level_update_snd, level_update_startScrolling]
    split
    · next hl =>
      refine ⟨?_, ?_⟩
      · show w.state.cameraOffset ≤ _ + 2
        rw [hoff]
        linarith
      · intro hfalse
        rw [hl] at hfalse
        cases hfalse
    · next hl =>
      exact ⟨le_of_eq hoff.symm, fun _ => hoff⟩
  · intro h
    rw [step_loose k r w h]

/-- Witness for the amended C2: on a concrete running world the tick leaves the
offset no smaller, and on a concrete ended world the pass resets it to 0. -/
theorem camera_monotone_in_game_witness :
    (runningWorld.state.cameraOffset ≤
       ((gameLoopStep noKeys 0 runningWorld).1).state.cameraOffset ∧
     (((gameLoopStep noKeys 0 runningWorld).1).level.startScrolling = false →
       ((gameLoopStep noKeys 0 runningWorld).1).state.cameraOffset =
         runningWorld.state.cameraOffset)) ∧
    ((gameLoopStep noKeys 0 looseWorld).1).state.cameraOffset = 0 :=
  ⟨(camera_monotone_in_game noKeys 0 runningWorld).1 rfl,
   (camera_monotone_in_game noKeys 0 looseWorld).2 rfl⟩

/-- Claim C7: once the status is `LOOSE`, the loop pass does not reschedule
itself, and no number of further ticks mutates the character or the platform
list — nor does the state ever leave `LOOSE`. -/
theorem ended_never_updates (k : Keys) (r : ℚ) (w : World)
    (h : w.state.status = GameStatus.LOOSE) :
    (gameLoopStep k r w).2 = false ∧
    ∀ ticks : List (Keys × ℚ),
      (runTicks ticks w).player = w.player ∧
      (runTicks ticks w).level = w.level ∧
      (runTicks ticks w).state.status = GameStatus.LOOSE := by
  refine ⟨?_, fun ticks => runTicks_loose ticks w h⟩
  rw [step_loose k r w h]

/-- Witness for C7 at the concrete ended world: the pass does not reschedule
and one further tick leaves character and platforms untouched. -/
theorem ended_never_updates_witness :
    (gameLoopStep noKeys 0 looseWorld).2 = false ∧
    ((runTicks [(noKeys, 0)] looseWorld).player = looseWorld.player ∧
     (runTicks [(noKeys, 0)] looseWorld).level = looseWorld.level ∧
     (runTicks [(noKeys, 0)] looseWorld).state.status = GameStatus.LOOSE) :=
  ⟨(ended_never_updates noKeys 0 looseWorld rfl).1,
   (ended_never_updates noKeys 0 looseWorld rfl).2 [(noKeys, 0)]⟩

lemma filter_spawn_shape (ps : List RectGameObject) (k : RectGameObject → Bool)
    (np : RectGameObject) :
    (if (ps.any fun q => ! k q) = true then ps.filter k ++ [np] else ps.filter k)
      = ps.filter k ++ (if ps.all k = true then [] else [np]) := by
  by_cases h : ps.all k = true
  · have hany : (ps.any fun q => ! k q) = false := by
      simp only [List.any_eq_false, Bool.not_eq_true']
      intro x hx
      simp [List.all_eq_true.mp h x hx]
    rw [hany, h]
    simp
  · have h' : ps.all k = false := by
      cases hk : ps.all k
      · rfl
      · exact absurd hk h
    have hany : (ps.any fun q => ! k q) = true := by
      rw [List.any_eq_true]
      have := List.all_eq_false.mp h'
      rcases this with ⟨x, hx, hkx⟩
      exact ⟨x, hx, by simp [hkx]⟩
    rw [hany, h']
    simp

/-- Claim C3: each `Level.update` removes exactly those platforms whose
screen-space `y` (world `y` plus the tick's updated camera offset) has reached
the viewport bottom, and appends exactly one replacement — the 80×10 brown
platform at random `x` and default `y = -cameraOffset` — iff at least one
platform was removed this tick; if none was removed, none is spawned. -/
theorem level_recycling (l : Level) (player : MainCharacter) (s : GameState)
    (rand : ℚ) :
    (l.update player s rand).1.platforms =
      l.platforms.filter
        (fun q => decide (q.getDimension.y + (l.update player s rand).2.cameraOffset
          < s.height)) ++
      (if (l.platforms.all
            (fun q => decide (q.getDimension.y + (l.update player s rand).2.cameraOffset
              < s.height))) = true
       then ([] : List RectGameObject)
       else [⟨⟨getRandomFloat 0 (s.width - 80) rand,
               -((l.update player s rand).2.cameraOffset), 80, 10⟩, "brown"⟩]) := by
  unfold Level.update
  dsimp only
  split
  · rw [apply_ite (fun x : Level × GameState => x.2.cameraOffset), ite_self,
      apply_ite (fun x : Level × GameState => x.1.platforms)]
    dsimp only [Level.spawnPlatform]
    exact filter_spawn_shape l.platforms _ _
  · rw [apply_ite (fun x : Level × GameState => x.2.cameraOffset), ite_self,
      apply_ite (fun x : Level × GameState => x.1.platforms)]
    dsimp only [Level.spawnPlatform]
    exact filter_spawn_shape l.platforms _ _
